import Mathlib

/-!
# Verification of the fastwebsockets framing engine core

A shallow embedding of `src/lib.rs` of the fastwebsockets crate.  Bytes are
modelled as `Nat` values below 256, byte buffers as `List Nat`, the async
byte stream feeding the read half as a single list holding every byte the
stream will ever deliver (the parser reads bytes on demand; running out of
list models EOF, i.e. `poll_read_buf` returning 0).  Machine integers are
`Nat`; the host is 64-bit, so the `u64 → usize` length conversion is exact.

Helper modules of the crate that are not part of `lib.rs` (`frame.rs`,
`close.rs`, `mask.rs`, `error.rs`) are modelled from the specification and
marked as such in their doc comments.
-/

namespace FastWS

/-- `Role` from `lib.rs`: a per-connection constant, `Server` or `Client`. -/
inductive Role where
  | Server
  | Client
deriving DecidableEq, Repr

/-- Modelled from the spec: the error kinds of `error.rs` (`WebSocketError`),
as enumerated in the specification's error-handling section. Payload-carrying
variants (`SendError`, `IoError`) are modelled without their payloads. -/
inductive WebSocketError where
  | UnexpectedEOF
  | ReservedBitsNotZero
  | InvalidValue
  | ControlFrameFragmented
  | PingFrameTooLarge
  | FrameTooLarge
  | InvalidCloseFrame
  | InvalidCloseCode
  | InvalidUTF8
  | InvalidContinuationFrame
  | ConnectionClosed
  | SendError
  | IoError
deriving DecidableEq, Repr

/-- Modelled from the spec: `OpCode` from `frame.rs` — the six defined 4-bit
operation codes. -/
inductive OpCode where
  | Continuation
  | Text
  | Binary
  | Close
  | Ping
  | Pong
deriving DecidableEq, Repr

/-- The wire value of an opcode: Continuation(0), Text(1), Binary(2),
Close(8), Ping(9), Pong(10). -/
def OpCode.toNat : OpCode → Nat
  | .Continuation => 0
  | .Text => 1
  | .Binary => 2
  | .Close => 8
  | .Ping => 9
  | .Pong => 10

/-- Modelled from the spec: `OpCode::try_from` from `frame.rs`. All values
other than the six defined ones are invalid and cause a protocol error
(`InvalidValue`) on parse. -/
def OpCode.tryFrom (n : Nat) : Except WebSocketError OpCode :=
  if n = 0 then .ok .Continuation
  else if n = 1 then .ok .Text
  else if n = 2 then .ok .Binary
  else if n = 8 then .ok .Close
  else if n = 9 then .ok .Ping
  else if n = 10 then .ok .Pong
  else .error .InvalidValue

/-- Modelled from the spec: `frame::is_control` — Close, Ping and Pong are
control opcodes, the others are data opcodes. -/
def isControl : OpCode → Bool
  | .Close => true
  | .Ping => true
  | .Pong => true
  | _ => false

/-- Modelled from the spec: the masker of `mask.rs` applied with a 4-byte
key `k`: byte `i` of the buffer becomes `b XOR k[i mod 4]`. -/
def maskBytes (payload : List Nat) (key : List Nat) : List Nat :=
  (List.range payload.length).map fun i => payload.getD i 0 ^^^ key.getD (i % 4) 0

/-- Modelled from the spec: `Frame` from `frame.rs`. Fields: `fin`, `opcode`,
optional 4-byte mask, payload. -/
structure Frame where
  fin : Bool
  opcode : OpCode
  mask : Option (List Nat)
  payload : List Nat
deriving DecidableEq, Repr

/-- Modelled from the spec: `Frame::unmask` — when a mask is present, applies
the masker with the frame's mask and clears the mask; otherwise a no-op. -/
def Frame.unmask (f : Frame) : Frame :=
  match f.mask with
  | some k => { f with payload := maskBytes f.payload k, mask := none }
  | none => f

/-- Modelled from the spec: `Frame::mask` — masks the payload with a fresh
4-byte key (the random key is taken here as an explicit argument) and
records it in the frame. -/
def Frame.maskWith (f : Frame) (key : List Nat) : Frame :=
  { f with payload := maskBytes f.payload key, mask := some key }

/-- Big-endian value of a list of bytes. -/
def beVal (l : List Nat) : Nat :=
  l.foldl (fun acc b => acc * 256 + b) 0

/-- The `k` big-endian bytes of `n` (most significant first). -/
def beBytes (k n : Nat) : List Nat :=
  (List.range k).map fun i => n >>> (8 * (k - 1 - i)) &&& 255

/-- Modelled from the spec: `Frame::close(code, reason)` from `frame.rs` —
a Close frame whose payload is the code as big-endian u16 followed by the
reason bytes. -/
def Frame.close (code : Nat) (reason : List Nat) : Frame :=
  { fin := true, opcode := .Close, mask := none, payload := beBytes 2 code ++ reason }

/-- Modelled from the spec: `Frame::close_raw(payload)` — a Close frame using
the payload verbatim. -/
def Frame.closeRaw (payload : List Nat) : Frame :=
  { fin := true, opcode := .Close, mask := none, payload := payload }

/-- Modelled from the spec: `Frame::pong(payload)` — a Pong frame carrying
the payload. -/
def Frame.pong (payload : List Nat) : Frame :=
  { fin := true, opcode := .Pong, mask := none, payload := payload }

/-- A continuation byte of a UTF-8 sequence: `0x80..=0xBF`. -/
def utf8Cont (b : Nat) : Bool := 128 ≤ b && b ≤ 191

/-- Modelled from the spec: `Frame::is_utf8` / `std::str::from_utf8` —
UTF-8 validity of a byte sequence per RFC 3629 (shortest form enforced,
surrogates excluded, values above U+10FFFF excluded). -/
def isUtf8 : List Nat → Bool
  | [] => true
  | b :: rest =>
    if b ≤ 127 then isUtf8 rest
    else if b ≤ 193 then false
    else if b ≤ 223 then
      match rest with
      | b1 :: r => utf8Cont b1 && isUtf8 r
      | [] => false
    else if b ≤ 239 then
      match rest with
      | b1 :: b2 :: r =>
        (if b = 224 then 160 ≤ b1 && b1 ≤ 191
         else if b = 237 then 128 ≤ b1 && b1 ≤ 159
         else utf8Cont b1) && utf8Cont b2 && isUtf8 r
      | _ => false
    else if b ≤ 244 then
      match rest with
      | b1 :: b2 :: b3 :: r =>
        (if b = 240 then 144 ≤ b1 && b1 ≤ 191
         else if b = 244 then 128 ≤ b1 && b1 ≤ 143
         else utf8Cont b1) && utf8Cont b2 && utf8Cont b3 && isUtf8 r
      | _ => false
    else false

/-- Modelled from the spec: `CloseCode::from(u16)` composed with
`CloseCode::is_allowed` from `close.rs`: 1000–1011 allowed except the
reserved 1004, 1005, 1006; 3000–3999 (library/IANA) and 4000–4999
(application/private) allowed; everything else not allowed. -/
def closeCodeAllowed (code : Nat) : Bool :=
  (1000 ≤ code && code ≤ 1011 && code ≠ 1004 && code ≠ 1005 && code ≠ 1006)
  || (3000 ≤ code && code ≤ 4999)

/-- The read-half state from `lib.rs` (`ReadHalf`), minus the byte buffer,
which the embedding carries as the explicit input list. -/
structure ReadHalf where
  role : Role
  auto_apply_mask : Bool
  auto_close : Bool
  auto_pong : Bool
  max_message_size : Nat
deriving DecidableEq, Repr

/-- `ReadHalf::after_handshake` from `lib.rs`: defaults. -/
def ReadHalf.afterHandshake (role : Role) : ReadHalf :=
  { role := role
    auto_apply_mask := true
    auto_close := true
    auto_pong := true
    max_message_size := 64 <<< 20 }

/-- `ReadHalf::poll_parse_frame_header` from `lib.rs`: parse one frame from
the head of `input`, which holds every byte the stream will deliver; needing
bytes past the end of `input` models `poll_read_buf` returning 0 bytes,
i.e. `UnexpectedEOF`. On success returns the frame and the residual bytes
left for the next parse. -/
def pollParseFrameHeader (maxMessageSize : Nat) (input : List Nat) :
    Except WebSocketError (Frame × List Nat) :=
  if input.length < 2 then .error .UnexpectedEOF else
  let b0 := input.getD 0 0
  let b1 := input.getD 1 0
  let fin := b0 &&& 128 != 0
  let rsv1 := b0 &&& 64 != 0
  let rsv2 := b0 &&& 32 != 0
  let rsv3 := b0 &&& 16 != 0
  if rsv1 || rsv2 || rsv3 then .error .ReservedBitsNotZero else
  match OpCode.tryFrom (b0 &&& 15) with
  | .error e => .error e
  | .ok opcode =>
    let masked := b1 &&& 128 != 0
    let lengthCode := b1 &&& 127
    let extra := if lengthCode = 126 then 2 else if lengthCode = 127 then 8 else 0
    let headerSize := 2 + extra + (if masked then 4 else 0)
    if input.length < headerSize then .error .UnexpectedEOF else
    let payloadLen := if extra = 0 then lengthCode else beVal ((input.drop 2).take extra)
    let mask := if masked then some ((input.drop (2 + extra)).take 4) else none
    if isControl opcode && !fin then .error .ControlFrameFragmented else
    if opcode = OpCode.Ping ∧ payloadLen > 125 then .error .PingFrameTooLarge else
    if payloadLen ≥ maxMessageSize then .error .FrameTooLarge else
    if input.length < headerSize + payloadLen then .error .UnexpectedEOF else
    .ok ({ fin := fin, opcode := opcode, mask := mask,
           payload := (input.drop headerSize).take payloadLen },
         input.drop (headerSize + payloadLen))

/-- The role-conditional unmask step of `poll_read_frame_inner` in `lib.rs`:
`if self.role == Role::Server && self.auto_apply_mask { frame.unmask() }`. -/
def applyAutoUnmask (rh : ReadHalf) (f : Frame) : Frame :=
  if rh.role = .Server ∧ rh.auto_apply_mask then f.unmask else f

/-- The close code carried in the first two bytes of a Close payload,
`u16::from_be_bytes(frame.payload[0..2])` in `lib.rs`. -/
def closeCodeOf (payload : List Nat) : Nat :=
  payload.getD 0 0 * 256 + payload.getD 1 0

/-- The post-parse processing of `ReadHalf::poll_read_frame_inner` in
`lib.rs` (the `match frame.opcode` block), applied to the frame after the
role-conditional unmask. Returns the pair the Rust function returns:
the result (`Ok(None)` = frame consumed internally, caller loops) and the
optional obligated reply frame. -/
def processFrame (rh : ReadHalf) (frame : Frame) :
    Except WebSocketError (Option Frame) × Option Frame :=
  match frame.opcode with
  | .Close =>
    if rh.auto_close then
      if frame.payload.length = 0 then
        (.ok (some frame), some (Frame.closeRaw frame.payload))
      else if frame.payload.length = 1 then
        (.error .InvalidCloseFrame, none)
      else
        let code := closeCodeOf frame.payload
        if !isUtf8 (frame.payload.drop 2) then
          (.error .InvalidUTF8, none)
        else if !closeCodeAllowed code then
          (.error .InvalidCloseCode, some (Frame.close 1002 (frame.payload.drop 2)))
        else
          (.ok (some frame), some (Frame.closeRaw frame.payload))
    else (.ok (some frame), none)
  | .Ping =>
    if rh.auto_pong then (.ok none, some (Frame.pong frame.payload))
    else (.ok (some frame), none)
  | .Text =>
    if frame.fin && !isUtf8 frame.payload then (.error .InvalidUTF8, none)
    else (.ok (some frame), none)
  | _ => (.ok (some frame), none)

/-- `ReadHalf::poll_read_frame_inner` from `lib.rs`: parse one frame, apply
the role-conditional unmask, then process it. Returns the result, the
obligated reply, and the residual input for the next read (unchanged on
error, as the Rust early-returns keep the buffer). -/
def readFrameInner (rh : ReadHalf) (input : List Nat) :
    (Except WebSocketError (Option Frame) × Option Frame) × List Nat :=
  match pollParseFrameHeader rh.max_message_size input with
  | .error e => ((.error e, none), input)
  | .ok (f, rest) => (processFrame rh (applyAutoUnmask rh f), rest)

/-- The write-half state from `lib.rs` (`WriteHalf`). `buffer` is the write
buffer; `vectored` and `writev_threshold` are performance hints that the
embedded logic (scalar `poll_write` only) never consults. -/
structure WriteHalf where
  role : Role
  closed : Bool
  vectored : Bool
  auto_apply_mask : Bool
  writev_threshold : Nat
  buffer : List Nat
deriving DecidableEq, Repr

/-- `WriteHalf::after_handshake` from `lib.rs`: defaults. -/
def WriteHalf.afterHandshake (role : Role) : WriteHalf :=
  { role := role
    closed := false
    vectored := true
    auto_apply_mask := true
    writev_threshold := 1024
    buffer := [] }

/-- Modelled from the spec: `Frame::fmt_head` from `frame.rs` — RFC 6455
header serialization: byte 0 is FIN(bit 7) with the opcode in the low
nibble (RSV bits zero); byte 1 is MASK(bit 7) with the 7-bit length code
(`len` if ≤ 125, 126 with two big-endian bytes following if ≤ 65535,
127 with eight big-endian bytes following otherwise); then the 4-byte
mask if present. -/
def Frame.fmtHead (f : Frame) : List Nat :=
  let b0 := (if f.fin then 128 else 0) ||| f.opcode.toNat
  let maskBit := if f.mask.isSome then 128 else 0
  let n := f.payload.length
  let lenBytes :=
    if n ≤ 125 then [maskBit ||| n]
    else if n ≤ 65535 then (maskBit ||| 126) :: beBytes 2 n
    else (maskBit ||| 127) :: beBytes 8 n
  b0 :: lenBytes ++ (match f.mask with | some k => k | none => [])

/-- `WriteHalf::start_send_frame` from `lib.rs`, with the `&mut self`
mutations threaded explicitly: the returned state is the write half as
mutated up to the point where the Rust function returns, and the `Option`
is the error, if any. The random mask key a Client-role send would
generate is taken as the explicit argument `key`. -/
def startSendFrame (wh : WriteHalf) (key : List Nat) (frame : Frame) :
    WriteHalf × Option WebSocketError :=
  let frame := if wh.role = .Client ∧ wh.auto_apply_mask then frame.maskWith key else frame
  if frame.opcode = .Close then
    ({ wh with closed := true,
               buffer := wh.buffer ++ frame.fmtHead ++ frame.payload }, none)
  else if wh.closed then
    (wh, some .ConnectionClosed)
  else
    ({ wh with buffer := wh.buffer ++ frame.fmtHead ++ frame.payload }, none)

/-- A sequence of `start_send_frame` calls on one write half, each with its
own mask key; returns the per-call errors in order and the final state.
A call that errors leaves the state as `start_send_frame` left it. -/
def runSends (wh : WriteHalf) : List (List Nat × Frame) → List (Option WebSocketError) × WriteHalf
  | [] => ([], wh)
  | (key, f) :: rest =>
    let s := startSendFrame wh key f
    let r := runSends s.1 rest
    (s.2 :: r.1, r.2)

/-- Outcome of a `poll_flush` run. `pending` models the poll suspending
because the mock stream's scripted responses ran out. -/
inductive FlushOutcome where
  | ok
  | err (e : WebSocketError)
  | pending
deriving DecidableEq, Repr

/-- `WriteHalf::poll_flush` from `lib.rs` over a scripted stream. Each loop
iteration first polls a stream-level flush (`flushRes` head: `true` = Ok,
`false` = an I/O error) and breaks with the error on failure; then breaks
Ok if the buffer is empty; otherwise polls a write (`writeRes` head:
`none` = an I/O error, `some n` = `n` bytes accepted), breaks
`ConnectionClosed` if `n = 0`, and otherwise advances the buffer by `n`
and loops. Returns the outcome and the remaining buffer. -/
def pollFlush (buf : List Nat) : List Bool → List (Option Nat) → FlushOutcome × List Nat
  | [], _ => (.pending, buf)
  | false :: _, _ => (.err .IoError, buf)
  | true :: fr, wr =>
    if buf.isEmpty then (.ok, buf)
    else
      match wr with
      | [] => (.pending, buf)
      | none :: _ => (.err .IoError, buf)
      | some 0 :: _ => (.err .ConnectionClosed, buf)
      | some (n + 1) :: wr => pollFlush (buf.drop (n + 1)) fr wr

/-- Outcome of one iteration of the `loop` in `WebSocket::poll_read_frame`
(`lib.rs`): loop again, return a frame, or return an error. -/
inductive StepOut where
  | again
  | done (f : Frame)
  | err (e : WebSocketError)
deriving DecidableEq, Repr

/-- One iteration of the `loop` in `WebSocket::poll_read_frame` from
`lib.rs`, given the pair the inner read produced, over a fully cooperative
stream (every `poll_flush` drains the whole write buffer, as `poll_flush`
does on a stream that accepts all bytes). Returns the iteration outcome,
the write half afterwards, and the bytes flushed to the stream during the
iteration. `key` is the mask key a Client-role obligated send would use. -/
def pollReadFrameStep (wh : WriteHalf) (key : List Nat)
    (res : Except WebSocketError (Option Frame)) (obligated : Option Frame) :
    StepOut × WriteHalf × List Nat :=
  let isClosed := wh.closed
  match obligated with
  | some reply =>
    if !isClosed then
      let s := startSendFrame wh key reply
      match s.2 with
      | some e => (.err e, s.1, [])
      | none =>
        let wh2 := { s.1 with buffer := [] }
        let flushed := s.1.buffer
        match res with
        | .error e => (.err e, wh2, flushed)
        | .ok none => (.again, wh2, flushed)
        | .ok (some f) =>
          if isClosed ∧ f.opcode ≠ .Close then (.err .ConnectionClosed, wh2, flushed)
          else (.done f, wh2, flushed)
    else
      match res with
      | .error e => (.err e, wh, [])
      | .ok none => (.again, wh, [])
      | .ok (some f) =>
        if isClosed ∧ f.opcode ≠ .Close then (.err .ConnectionClosed, wh, [])
        else (.done f, wh, [])
  | none =>
    match res with
    | .error e => (.err e, wh, [])
    | .ok none => (.again, wh, [])
    | .ok (some f) =>
      if isClosed ∧ f.opcode ≠ .Close then (.err .ConnectionClosed, wh, [])
      else (.done f, wh, [])

/-! ## Supporting lemmas -/

deriving instance DecidableEq for Except

/-- Sanity check, spec scenario S1: the header parser on the wire bytes of a
masked Text frame "Hello". -/
lemma scenario_S1_parse :
    pollParseFrameHeader (64 <<< 20) [129, 133, 55, 250, 33, 61, 127, 159, 77, 81, 88] =
    .ok ({ fin := true, opcode := .Text, mask := some [55, 250, 33, 61],
           payload := [127, 159, 77, 81, 88] }, []) := by decide

/-- Sanity check, spec scenario S1 continued: the full server-role inner
read unmasks to the payload "Hello". -/
lemma scenario_S1_read :
    readFrameInner (ReadHalf.afterHandshake .Server)
      [129, 133, 55, 250, 33, 61, 127, 159, 77, 81, 88] =
    ((.ok (some { fin := true, opcode := .Text, mask := none,
                  payload := [72, 101, 108, 108, 111] }), none), []) := by decide

/-- Sanity check, spec scenario S2: an empty Ping obliges an empty Pong and
is consumed internally. -/
lemma scenario_S2_read :
    readFrameInner (ReadHalf.afterHandshake .Server) [137, 0] =
    ((.ok none, some (Frame.pong [])), []) := by decide

/-- Sanity check, spec scenario S4: close code 999 is rejected with an
obligated `close(1002, [])` reply. -/
lemma scenario_S4_read :
    readFrameInner (ReadHalf.afterHandshake .Server) [136, 2, 3, 231] =
    ((.error .InvalidCloseCode, some (Frame.close 1002 [])), []) := by decide

lemma and255 (n : Nat) : n &&& 255 = n % 256 := by
  simpa using Nat.and_pow_two_sub_one_eq_mod n 8

lemma beVal_beBytes2 (n : Nat) (h : n < 65536) : beVal (beBytes 2 n) = n := by
  show beVal [n >>> (8 * 1) &&& 255, n >>> (8 * 0) &&& 255] = n
  simp only [beVal, List.foldl, Nat.shiftRight_eq_div_pow, and255]
  omega

lemma beVal_beBytes8 (n : Nat) (h : n < 2 ^ 64) : beVal (beBytes 8 n) = n := by
  show beVal [n >>> (8 * 7) &&& 255, n >>> (8 * 6) &&& 255, n >>> (8 * 5) &&& 255,
    n >>> (8 * 4) &&& 255, n >>> (8 * 3) &&& 255, n >>> (8 * 2) &&& 255,
    n >>> (8 * 1) &&& 255, n >>> (8 * 0) &&& 255] = n
  simp only [beVal, List.foldl, Nat.shiftRight_eq_div_pow, and255]
  norm_num
  omega

lemma lor_128_and_127 : ∀ n < 128, (128 ||| n) &&& 127 = n := by decide

lemma lor_128_and_128 : ∀ n < 128, (128 ||| n) &&& 128 = 128 := by decide

lemma small_and_127 : ∀ n < 128, n &&& 127 = n := by decide

lemma small_and_128 : ∀ n < 128, n &&& 128 = 0 := by decide

/-- Decoding the first header byte produced by `fmt_head`. -/
lemma headByte0 (fin : Bool) (op : OpCode) :
    let b0 := (if fin then 128 else 0) ||| op.toNat
    (b0 &&& 128 != 0) = fin ∧ b0 &&& 64 = 0 ∧ b0 &&& 32 = 0 ∧ b0 &&& 16 = 0 ∧
      b0 &&& 15 = op.toNat := by
  cases fin <;> cases op <;> decide

/-- `OpCode::try_from` inverts `toNat` on defined opcodes. -/
lemma tryFrom_toNat (op : OpCode) : OpCode.tryFrom op.toNat = .ok op := by
  cases op <;> rfl

lemma zero_lor_and_127 : ∀ n < 128, (0 ||| n) &&& 127 = n := by decide

lemma zero_lor_and_128 : ∀ n < 128, (0 ||| n) &&& 128 = 0 := by decide

/-- Parsing a frame serialized by `fmt_head` (header, then payload, then any
residual bytes): for a frame satisfying the wire invariants the parser
checks before the size test — a 4-byte mask, control frames final, Ping
payload at most 125 — the parse fails with `FrameTooLarge` when the payload
length reaches `max`, and otherwise returns the frame and the residue. -/
lemma parse_fmtHead (max : Nat) (f : Frame) (rest : List Nat)
    (hmask : ∀ k, f.mask = some k → k.length = 4)
    (hfin : isControl f.opcode = true → f.fin = true)
    (hping : f.opcode = OpCode.Ping → f.payload.length ≤ 125)
    (h64 : f.payload.length < 2 ^ 64) :
    pollParseFrameHeader max (f.fmtHead ++ f.payload ++ rest) =
      if max ≤ f.payload.length then .error .FrameTooLarge
      else .ok (f, rest) := by
  obtain ⟨fin, op, mask, payload⟩ := f
  simp only at hfin hping h64 ⊢
  obtain ⟨hb0fin, hb0r1, hb0r2, hb0r3, hb0op⟩ := headByte0 fin op
  rcases mask with _ | k
  · rcases Nat.lt_or_ge payload.length 126 with hsmall | hlarge
    · have hfmt : Frame.fmtHead ⟨fin, op, none, payload⟩ =
          [(if fin then 128 else 0) ||| op.toNat, 0 ||| payload.length] := by
        simp [Frame.fmtHead, Nat.lt_succ_iff.mp hsmall]
      rw [hfmt]
      simp only [List.cons_append, List.nil_append]
      unfold pollParseFrameHeader
      rw [if_neg (by simp)]
      simp only [List.getD_cons_zero, List.getD_cons_succ]
      rw [hb0op, tryFrom_toNat]
      simp only [hb0fin, hb0r1, hb0r2, hb0r3,
        zero_lor_and_127 payload.length (by omega),
        zero_lor_and_128 payload.length (by omega)]
      have h126 : payload.length ≠ 126 := by omega
      have h127 : payload.length ≠ 127 := by omega
      have hcf : (isControl op && !fin) = false := by
        cases hcontrol : isControl op
        · simp
        · simp [hfin hcontrol]
      simp only [h126, h127, if_false, ite_false, hcf, bne_self_eq_false,
        Bool.false_eq_true, if_false, Bool.or_self, reduceIte]
      have hpingc : ¬(op = OpCode.Ping ∧ payload.length > 125) := by
        rintro ⟨_, h⟩; omega
      rw [if_neg hpingc]
      rcases Nat.lt_or_ge payload.length max with hsz | hsz
      · have hc1 : ¬(max ≤ payload.length) := by omega
        simp only [ge_iff_le, if_neg hc1]
        rw [if_neg (by simp only [List.length_cons, List.length_append]; try omega)]
        have hd2 : (((if fin = true then 128 else 0) ||| op.toNat) ::
            (0 ||| payload.length) :: (payload ++ rest)).drop 2 = payload ++ rest := rfl
        rw [show (2 : Nat) + payload.length = payload.length + 1 + 1 from by omega]
        simp only [List.drop_succ_cons, hd2, List.take_left' rfl, List.drop_left' rfl]
        rw [if_neg (by simp only [List.length_cons, List.length_append]; try omega)]
      · have hc : max ≤ payload.length := hsz
        simp only [ge_iff_le, if_pos hc]
        rw [if_neg (by simp only [List.length_cons, List.length_append]; try omega)]
    · rcases Nat.lt_or_ge payload.length 65536 with hmed | hbig
      · have hfmt : Frame.fmtHead ⟨fin, op, none, payload⟩ =
            [(if fin then 128 else 0) ||| op.toNat, 126,
             payload.length >>> 8 &&& 255, payload.length &&& 255] := by
          simp [Frame.fmtHead, beBytes, List.range_succ]
          rw [if_neg (by omega), if_pos (by omega)]
        rw [hfmt]
        simp only [List.cons_append, List.nil_append]
        unfold pollParseFrameHeader
        rw [if_neg (by simp)]
        simp only [List.getD_cons_zero, List.getD_cons_succ]
        rw [hb0op, tryFrom_toNat]
        have hm128 : ((126 : Nat) &&& 128 != 0) = false := by decide
        have hm127 : (126 : Nat) &&& 127 = 126 := by decide
        have hcf : (isControl op && !fin) = false := by
          cases hcontrol : isControl op
          · simp
          · simp [hfin hcontrol]
        simp only [hb0fin, hb0r1, hb0r2, hb0r3, hm128, hm127, hcf,
          bne_self_eq_false, Bool.false_eq_true, if_false, Bool.or_self, reduceIte]
        have hval : beVal [payload.length >>> 8 &&& 255, payload.length &&& 255] =
            payload.length := beVal_beBytes2 payload.length hmed
        rw [show List.take 2 (List.drop 2 (((if fin = true then 128 else 0) ||| op.toNat) ::
              (126 : Nat) :: (payload.length >>> 8 &&& 255) ::
              (payload.length &&& 255) :: (payload ++ rest))) =
            [payload.length >>> 8 &&& 255, payload.length &&& 255]
          from rfl, hval]
        simp only [if_neg (show (2 : Nat) ≠ 0 by omega)]
        have hpingc : ¬(op = OpCode.Ping ∧ payload.length > 125) := by
          rintro ⟨hop, _⟩; have := hping hop; omega
        rw [if_neg hpingc]
        rcases Nat.lt_or_ge payload.length max with hsz | hsz
        · have hc1 : ¬(max ≤ payload.length) := by omega
          simp only [ge_iff_le, if_neg hc1]
          rw [if_neg (by simp only [List.length_cons, List.length_append]; try omega)]
          rw [if_neg (by simp only [List.length_cons, List.length_append]; try omega)]
          have hd4 : List.drop (2 + 2) (((if fin = true then 128 else 0) ||| op.toNat) ::
              (126 : Nat) :: (payload.length >>> 8 &&& 255) ::
              (payload.length &&& 255) :: (payload ++ rest)) =
              payload ++ rest := rfl
          rw [hd4, List.take_left' rfl]
          have hfull : ((if fin = true then 128 else 0) ||| op.toNat) ::
              (126 : Nat) :: (payload.length >>> 8 &&& 255) ::
              (payload.length &&& 255) :: (payload ++ rest) =
              (([(if fin = true then 128 else 0) ||| op.toNat, 126,
                 payload.length >>> 8 &&& 255,
                 payload.length &&& 255] ++ payload) ++ rest) := by
            simp
          rw [hfull, List.drop_left' (by simp only [List.length_append,
            List.length_cons, List.length_nil]; try omega)]
        · have hc : max ≤ payload.length := hsz
          simp only [ge_iff_le, if_pos hc]
          rw [if_neg (by simp only [List.length_cons, List.length_append]; try omega)]
      · have hfmt : Frame.fmtHead ⟨fin, op, none, payload⟩ =
            [(if fin then 128 else 0) ||| op.toNat, 127,
             payload.length >>> 56 &&& 255, payload.length >>> 48 &&& 255,
             payload.length >>> 40 &&& 255, payload.length >>> 32 &&& 255,
             payload.length >>> 24 &&& 255, payload.length >>> 16 &&& 255,
             payload.length >>> 8 &&& 255, payload.length &&& 255] := by
          simp [Frame.fmtHead, beBytes, List.range_succ]
          rw [if_neg (by omega), if_neg (by omega)]
        rw [hfmt]
        simp only [List.cons_append, List.nil_append]
        unfold pollParseFrameHeader
        rw [if_neg (by simp)]
        simp only [List.getD_cons_zero, List.getD_cons_succ]
        rw [hb0op, tryFrom_toNat]
        have hm128 : ((127 : Nat) &&& 128 != 0) = false := by decide
        have hm127 : (127 : Nat) &&& 127 = 127 := by decide
        have hcf : (isControl op && !fin) = false := by
          cases hcontrol : isControl op
          · simp
          · simp [hfin hcontrol]
        simp only [hb0fin, hb0r1, hb0r2, hb0r3, hm128, hm127, hcf,
          bne_self_eq_false, Bool.false_eq_true, if_false, Bool.or_self, reduceIte]
        simp only [if_neg (show (127 : Nat) ≠ 126 by omega)]
        have hval : beVal [payload.length >>> 56 &&& 255, payload.length >>> 48 &&& 255,
            payload.length >>> 40 &&& 255, payload.length >>> 32 &&& 255,
            payload.length >>> 24 &&& 255, payload.length >>> 16 &&& 255,
            payload.length >>> 8 &&& 255, payload.length &&& 255] =
            payload.length := beVal_beBytes8 payload.length h64
        rw [show List.take 8 (List.drop 2 (((if fin = true then 128 else 0) ||| op.toNat) ::
              (127 : Nat) :: (payload.length >>> 56 &&& 255) ::
              (payload.length >>> 48 &&& 255) :: (payload.length >>> 40 &&& 255) ::
              (payload.length >>> 32 &&& 255) :: (payload.length >>> 24 &&& 255) ::
              (payload.length >>> 16 &&& 255) :: (payload.length >>> 8 &&& 255) ::
              (payload.length &&& 255) :: (payload ++ rest))) =
            [payload.length >>> 56 &&& 255, payload.length >>> 48 &&& 255,
             payload.length >>> 40 &&& 255, payload.length >>> 32 &&& 255,
             payload.length >>> 24 &&& 255, payload.length >>> 16 &&& 255,
             payload.length >>> 8 &&& 255, payload.length &&& 255]
          from rfl, hval]
        simp only [if_neg (show (8 : Nat) ≠ 0 by omega)]
        have hpingc : ¬(op = OpCode.Ping ∧ payload.length > 125) := by
          rintro ⟨hop, _⟩; have := hping hop; omega
        rw [if_neg hpingc]
        rcases Nat.lt_or_ge payload.length max with hsz | hsz
        · have hc1 : ¬(max ≤ payload.length) := by omega
          simp only [ge_iff_le, if_neg hc1]
          rw [if_neg (by simp only [List.length_cons, List.length_append]; try omega)]
          rw [if_neg (by simp only [List.length_cons, List.length_append]; try omega)]
          have hd10 : List.drop (2 + 8) (((if fin = true then 128 else 0) ||| op.toNat) ::
              (127 : Nat) :: (payload.length >>> 56 &&& 255) ::
              (payload.length >>> 48 &&& 255) :: (payload.length >>> 40 &&& 255) ::
              (payload.length >>> 32 &&& 255) :: (payload.length >>> 24 &&& 255) ::
              (payload.length >>> 16 &&& 255) :: (payload.length >>> 8 &&& 255) ::
              (payload.length &&& 255) :: (payload ++ rest)) = payload ++ rest := rfl
          rw [hd10, List.take_left' rfl]
          have hfull : ((if fin = true then 128 else 0) ||| op.toNat) ::
              (127 : Nat) :: (payload.length >>> 56 &&& 255) ::
              (payload.length >>> 48 &&& 255) :: (payload.length >>> 40 &&& 255) ::
              (payload.length >>> 32 &&& 255) :: (payload.length >>> 24 &&& 255) ::
              (payload.length >>> 16 &&& 255) :: (payload.length >>> 8 &&& 255) ::
              (payload.length &&& 255) :: (payload ++ rest) =
              (([(if fin = true then 128 else 0) ||| op.toNat, 127,
                 payload.length >>> 56 &&& 255, payload.length >>> 48 &&& 255,
                 payload.length >>> 40 &&& 255, payload.length >>> 32 &&& 255,
                 payload.length >>> 24 &&& 255, payload.length >>> 16 &&& 255,
                 payload.length >>> 8 &&& 255, payload.length &&& 255] ++ payload)
                ++ rest) := by
            simp
          rw [hfull, List.drop_left' (by simp only [List.length_append,
            List.length_cons, List.length_nil]; try omega)]
        · have hc : max ≤ payload.length := hsz
          simp only [ge_iff_le, if_pos hc]
          rw [if_neg (by simp only [List.length_cons, List.length_append]; try omega)]
  · have hk : k.length = 4 := hmask k rfl
    rcases Nat.lt_or_ge payload.length 126 with hsmall | hlarge
    · have hfmt : Frame.fmtHead ⟨fin, op, some k, payload⟩ =
          [(if fin then 128 else 0) ||| op.toNat, 128 ||| payload.length] ++ k := by
        simp [Frame.fmtHead, Nat.lt_succ_iff.mp hsmall]
      rw [hfmt]
      simp only [List.cons_append, List.nil_append, List.append_assoc]
      unfold pollParseFrameHeader
      rw [if_neg (by simp)]
      simp only [List.getD_cons_zero, List.getD_cons_succ]
      rw [hb0op, tryFrom_toNat]
      simp only [hb0fin, hb0r1, hb0r2, hb0r3,
        lor_128_and_127 payload.length (by omega),
        lor_128_and_128 payload.length (by omega)]
      have h126 : payload.length ≠ 126 := by omega
      have h127 : payload.length ≠ 127 := by omega
      have hcf : (isControl op && !fin) = false := by
        cases hcontrol : isControl op
        · simp
        · simp [hfin hcontrol]
      simp only [h126, h127, if_false, ite_false, hcf, bne_self_eq_false,
        Bool.false_eq_true, if_false, Bool.or_self, reduceIte]
      simp only [show (if ((128 : Nat) != 0) = true then 4 else 0) = 4 from by decide]
      have hpingc : ¬(op = OpCode.Ping ∧ payload.length > 125) := by
        rintro ⟨_, h⟩; omega
      rw [if_neg hpingc]
      rcases Nat.lt_or_ge payload.length max with hsz | hsz
      · have hc1 : ¬(max ≤ payload.length) := by omega
        simp only [ge_iff_le, if_neg hc1]
        rw [if_neg (by simp only [List.length_cons, List.length_append, hk]; try omega)]
        rw [if_neg (by simp only [List.length_cons, List.length_append, hk]; try omega)]
        have hdm : List.take 4 (List.drop (2 + 0) (((if fin = true then 128 else 0) |||
            op.toNat) :: (128 ||| payload.length) :: (k ++ (payload ++ rest)))) = k := by
          rw [show List.drop (2 + 0) (((if fin = true then 128 else 0) ||| op.toNat) ::
            (128 ||| payload.length) :: (k ++ (payload ++ rest))) =
            k ++ (payload ++ rest) from rfl]
          exact List.take_left' hk
        rw [hdm]
        have hd6 : List.drop (2 + 0 + 4) (((if fin = true then 128 else 0) |||
            op.toNat) :: (128 ||| payload.length) :: (k ++ (payload ++ rest))) =
            payload ++ rest := by
          rw [show List.drop (2 + 0 + 4) (((if fin = true then 128 else 0) ||| op.toNat) ::
            (128 ||| payload.length) :: (k ++ (payload ++ rest))) =
            List.drop 4 (k ++ (payload ++ rest)) from rfl]
          exact List.drop_left' hk
        rw [hd6, List.take_left' rfl]
        have hfull : ((if fin = true then 128 else 0) ||| op.toNat) ::
            (128 ||| payload.length) :: (k ++ (payload ++ rest)) =
            (((((if fin = true then 128 else 0) ||| op.toNat) ::
               (128 ||| payload.length) :: k) ++ payload) ++ rest) := by
          simp
        rw [hfull, List.drop_left' (by simp only [List.length_append,
          List.length_cons, List.length_nil, hk]; try omega)]
        rfl
      · have hc : max ≤ payload.length := hsz
        simp only [ge_iff_le, if_pos hc]
        rw [if_neg (by simp only [List.length_cons, List.length_append, hk]; try omega)]
    · rcases Nat.lt_or_ge payload.length 65536 with hmed | hbig
      · have hfmt : Frame.fmtHead ⟨fin, op, some k, payload⟩ =
            [(if fin then 128 else 0) ||| op.toNat, 128 ||| 126,
             payload.length >>> 8 &&& 255, payload.length &&& 255] ++ k := by
          simp [Frame.fmtHead, beBytes, List.range_succ]
          rw [if_neg (by omega), if_pos (by omega)]
          rfl
        rw [hfmt]
        simp only [List.cons_append, List.nil_append, List.append_assoc]
        unfold pollParseFrameHeader
        rw [if_neg (by simp)]
        simp only [List.getD_cons_zero, List.getD_cons_succ]
        rw [hb0op, tryFrom_toNat]
        have hm128 : (((128 : Nat) ||| 126) &&& 128 != 0) = true := by decide
        have hm127 : ((128 : Nat) ||| 126) &&& 127 = 126 := by decide
        have hcf : (isControl op && !fin) = false := by
          cases hcontrol : isControl op
          · simp
          · simp [hfin hcontrol]
        simp only [hb0fin, hb0r1, hb0r2, hb0r3, hm128, hm127, hcf,
          bne_self_eq_false, Bool.false_eq_true, if_false, Bool.or_self, reduceIte]
        have hval : beVal [payload.length >>> 8 &&& 255, payload.length &&& 255] =
            payload.length := beVal_beBytes2 payload.length hmed
        rw [show List.take 2 (List.drop 2 (((if fin = true then 128 else 0) ||| op.toNat) ::
              ((128 : Nat) ||| 126) :: (payload.length >>> 8 &&& 255) ::
              (payload.length &&& 255) :: (k ++ (payload ++ rest)))) =
            [payload.length >>> 8 &&& 255, payload.length &&& 255]
          from rfl, hval]
        simp only [if_neg (show (2 : Nat) ≠ 0 by omega)]
        have hpingc : ¬(op = OpCode.Ping ∧ payload.length > 125) := by
          rintro ⟨hop, _⟩; have := hping hop; omega
        rw [if_neg hpingc]
        rcases Nat.lt_or_ge payload.length max with hsz | hsz
        · have hc1 : ¬(max ≤ payload.length) := by omega
          simp only [ge_iff_le, if_neg hc1]
          rw [if_neg (by simp only [List.length_cons, List.length_append, hk]; try omega)]
          rw [if_neg (by simp only [List.length_cons, List.length_append, hk]; try omega)]
          have hdm : List.take 4 (List.drop (2 + 2) (((if fin = true then 128 else 0) |||
              op.toNat) :: ((128 : Nat) ||| 126) :: (payload.length >>> 8 &&& 255) ::
              (payload.length &&& 255) :: (k ++ (payload ++ rest)))) = k := by
            rw [show List.drop (2 + 2) (((if fin = true then 128 else 0) ||| op.toNat) ::
              ((128 : Nat) ||| 126) :: (payload.length >>> 8 &&& 255) ::
              (payload.length &&& 255) :: (k ++ (payload ++ rest))) =
              k ++ (payload ++ rest) from rfl]
            exact List.take_left' hk
          rw [hdm]
          have hd8 : List.drop (2 + 2 + 4) (((if fin = true then 128 else 0) |||
              op.toNat) :: ((128 : Nat) ||| 126) :: (payload.length >>> 8 &&& 255) ::
              (payload.length &&& 255) :: (k ++ (payload ++ rest))) =
              payload ++ rest := by
            rw [show List.drop (2 + 2 + 4) (((if fin = true then 128 else 0) ||| op.toNat) ::
              ((128 : Nat) ||| 126) :: (payload.length >>> 8 &&& 255) ::
              (payload.length &&& 255) :: (k ++ (payload ++ rest))) =
              List.drop 4 (k ++ (payload ++ rest)) from rfl]
            exact List.drop_left' hk
          rw [hd8, List.take_left' rfl]
          have hfull : ((if fin = true then 128 else 0) ||| op.toNat) ::
              ((128 : Nat) ||| 126) :: (payload.length >>> 8 &&& 255) ::
              (payload.length &&& 255) :: (k ++ (payload ++ rest)) =
              (((((if fin = true then 128 else 0) ||| op.toNat) ::
                 ((128 : Nat) ||| 126) :: (payload.length >>> 8 &&& 255) ::
                 (payload.length &&& 255) :: k) ++ payload) ++ rest) := by
            simp
          rw [hfull, List.drop_left' (by simp only [List.length_append,
            List.length_cons, List.length_nil, hk]; try omega)]
        · have hc : max ≤ payload.length := hsz
          simp only [ge_iff_le, if_pos hc]
          rw [if_neg (by simp only [List.length_cons, List.length_append, hk]; try omega)]
      · have hfmt : Frame.fmtHead ⟨fin, op, some k, payload⟩ =
            [(if fin then 128 else 0) ||| op.toNat, 128 ||| 127,
             payload.length >>> 56 &&& 255, payload.length >>> 48 &&& 255,
             payload.length >>> 40 &&& 255, payload.length >>> 32 &&& 255,
             payload.length >>> 24 &&& 255, payload.length >>> 16 &&& 255,
             payload.length >>> 8 &&& 255, payload.length &&& 255] ++ k := by
          simp [Frame.fmtHead, beBytes, List.range_succ]
          rw [if_neg (by omega), if_neg (by omega)]
          rfl
        rw [hfmt]
        simp only [List.cons_append, List.nil_append, List.append_assoc]
        unfold pollParseFrameHeader
        rw [if_neg (by simp)]
        simp only [List.getD_cons_zero, List.getD_cons_succ]
        rw [hb0op, tryFrom_toNat]
        have hm128 : (((128 : Nat) ||| 127) &&& 128 != 0) = true := by decide
        have hm127 : ((128 : Nat) ||| 127) &&& 127 = 127 := by decide
        have hcf : (isControl op && !fin) = false := by
          cases hcontrol : isControl op
          · simp
          · simp [hfin hcontrol]
        simp only [hb0fin, hb0r1, hb0r2, hb0r3, hm128, hm127, hcf,
          bne_self_eq_false, Bool.false_eq_true, if_false, Bool.or_self, reduceIte]
        simp only [if_neg (show (127 : Nat) ≠ 126 by omega)]
        have hval : beVal [payload.length >>> 56 &&& 255, payload.length >>> 48 &&& 255,
            payload.length >>> 40 &&& 255, payload.length >>> 32 &&& 255,
            payload.length >>> 24 &&& 255, payload.length >>> 16 &&& 255,
            payload.length >>> 8 &&& 255, payload.length &&& 255] =
            payload.length := beVal_beBytes8 payload.length h64
        rw [show List.take 8 (List.drop 2 (((if fin = true then 128 else 0) ||| op.toNat) ::
              ((128 : Nat) ||| 127) :: (payload.length >>> 56 &&& 255) ::
              (payload.length >>> 48 &&& 255) :: (payload.length >>> 40 &&& 255) ::
              (payload.length >>> 32 &&& 255) :: (payload.length >>> 24 &&& 255) ::
              (payload.length >>> 16 &&& 255) :: (payload.length >>> 8 &&& 255) ::
              (payload.length &&& 255) :: (k ++ (payload ++ rest)))) =
            [payload.length >>> 56 &&& 255, payload.length >>> 48 &&& 255,
             payload.length >>> 40 &&& 255, payload.length >>> 32 &&& 255,
             payload.length >>> 24 &&& 255, payload.length >>> 16 &&& 255,
             payload.length >>> 8 &&& 255, payload.length &&& 255]
          from rfl, hval]
        simp only [if_neg (show (8 : Nat) ≠ 0 by omega)]
        have hpingc : ¬(op = OpCode.Ping ∧ payload.length > 125) := by
          rintro ⟨hop, _⟩; have := hping hop; omega
        rw [if_neg hpingc]
        rcases Nat.lt_or_ge payload.length max with hsz | hsz
        · have hc1 : ¬(max ≤ payload.length) := by omega
          simp only [ge_iff_le, if_neg hc1]
          rw [if_neg (by simp only [List.length_cons, List.length_append, hk]; try omega)]
          rw [if_neg (by simp only [List.length_cons, List.length_append, hk]; try omega)]
          have hdm : List.take 4 (List.drop (2 + 8) (((if fin = true then 128 else 0) |||
              op.toNat) :: ((128 : Nat) ||| 127) :: (payload.length >>> 56 &&& 255) ::
              (payload.length >>> 48 &&& 255) :: (payload.length >>> 40 &&& 255) ::
              (payload.length >>> 32 &&& 255) :: (payload.length >>> 24 &&& 255) ::
              (payload.length >>> 16 &&& 255) :: (payload.length >>> 8 &&& 255) ::
              (payload.length &&& 255) :: (k ++ (payload ++ rest)))) = k := by
            rw [show List.drop (2 + 8) (((if fin = true then 128 else 0) ||| op.toNat) ::
              ((128 : Nat) ||| 127) :: (payload.length >>> 56 &&& 255) ::
              (payload.length >>> 48 &&& 255) :: (payload.length >>> 40 &&& 255) ::
              (payload.length >>> 32 &&& 255) :: (payload.length >>> 24 &&& 255) ::
              (payload.length >>> 16 &&& 255) :: (payload.length >>> 8 &&& 255) ::
              (payload.length &&& 255) :: (k ++ (payload ++ rest))) =
              k ++ (payload ++ rest) from rfl]
            exact List.take_left' hk
          rw [hdm]
          have hd14 : List.drop (2 + 8 + 4) (((if fin = true then 128 else 0) |||
              op.toNat) :: ((128 : Nat) ||| 127) :: (payload.length >>> 56 &&& 255) ::
              (payload.length >>> 48 &&& 255) :: (payload.length >>> 40 &&& 255) ::
              (payload.length >>> 32 &&& 255) :: (payload.length >>> 24 &&& 255) ::
              (payload.length >>> 16 &&& 255) :: (payload.length >>> 8 &&& 255) ::
              (payload.length &&& 255) :: (k ++ (payload ++ rest))) =
              payload ++ rest := by
            rw [show List.drop (2 + 8 + 4) (((if fin = true then 128 else 0) ||| op.toNat) ::
              ((128 : Nat) ||| 127) :: (payload.length >>> 56 &&& 255) ::
              (payload.length >>> 48 &&& 255) :: (payload.length >>> 40 &&& 255) ::
              (payload.length >>> 32 &&& 255) :: (payload.length >>> 24 &&& 255) ::
              (payload.length >>> 16 &&& 255) :: (payload.length >>> 8 &&& 255) ::
              (payload.length &&& 255) :: (k ++ (payload ++ rest))) =
              List.drop 4 (k ++ (payload ++ rest)) from rfl]
            exact List.drop_left' hk
          rw [hd14, List.take_left' rfl]
          have hfull : ((if fin = true then 128 else 0) ||| op.toNat) ::
              ((128 : Nat) ||| 127) :: (payload.length >>> 56 &&& 255) ::
              (payload.length >>> 48 &&& 255) :: (payload.length >>> 40 &&& 255) ::
              (payload.length >>> 32 &&& 255) :: (payload.length >>> 24 &&& 255) ::
              (payload.length >>> 16 &&& 255) :: (payload.length >>> 8 &&& 255) ::
              (payload.length &&& 255) :: (k ++ (payload ++ rest)) =
              (((((if fin = true then 128 else 0) ||| op.toNat) ::
                 ((128 : Nat) ||| 127) :: (payload.length >>> 56 &&& 255) ::
                 (payload.length >>> 48 &&& 255) :: (payload.length >>> 40 &&& 255) ::
                 (payload.length >>> 32 &&& 255) :: (payload.length >>> 24 &&& 255) ::
                 (payload.length >>> 16 &&& 255) :: (payload.length >>> 8 &&& 255) ::
                 (payload.length &&& 255) :: k) ++ payload) ++ rest) := by
            simp
          rw [hfull, List.drop_left' (by simp only [List.length_append,
            List.length_cons, List.length_nil, hk]; try omega)]
        · have hc : max ≤ payload.length := hsz
          simp only [ge_iff_le, if_pos hc]
          rw [if_neg (by simp only [List.length_cons, List.length_append, hk]; try omega)]

/-- Whatever frame the post-parse processing surfaces is the very frame it
was given: no branch of the `match` rewrites the frame. -/
lemma processFrame_ok_some (rh : ReadHalf) (h g : Frame)
    (hres : (processFrame rh h).1 = .ok (some g)) : g = h := by
  cases hop : h.opcode <;> simp only [processFrame, hop] at hres <;>
    first
    | (split_ifs at hres <;> simp_all)
    | simp_all

lemma startSendFrame_snd_none (wh : WriteHalf) (key : List Nat) (f : Frame)
    (h : wh.closed = false) : (startSendFrame wh key f).2 = none := by
  simp only [startSendFrame]
  by_cases hc : (if wh.role = .Client ∧ wh.auto_apply_mask then f.maskWith key
      else f).opcode = .Close
  · rw [if_pos hc]
  · rw [if_neg hc, if_neg (by simp [h])]

lemma startSendFrame_buffer (wh : WriteHalf) (key : List Nat) (f : Frame)
    (h : wh.closed = false) :
    (startSendFrame wh key f).1.buffer =
      wh.buffer ++ (if wh.role = .Client ∧ wh.auto_apply_mask then f.maskWith key
        else f).fmtHead ++ (if wh.role = .Client ∧ wh.auto_apply_mask then
          f.maskWith key else f).payload := by
  simp only [startSendFrame]
  by_cases hc : (if wh.role = .Client ∧ wh.auto_apply_mask then f.maskWith key
      else f).opcode = .Close
  · rw [if_pos hc]
  · rw [if_neg hc, if_neg (by simp [h])]

lemma startSendFrame_closed_mono (wh : WriteHalf) (key : List Nat) (f : Frame)
    (h : wh.closed = true) : (startSendFrame wh key f).1.closed = true := by
  simp only [startSendFrame]
  by_cases hc : (if wh.role = .Client ∧ wh.auto_apply_mask then f.maskWith key
      else f).opcode = .Close
  · rw [if_pos hc]
  · rw [if_neg hc, if_pos h]
    exact h

lemma startSendFrame_close (wh : WriteHalf) (key : List Nat) (f : Frame)
    (hop : f.opcode = .Close) :
    (startSendFrame wh key f).1.closed = true ∧ (startSendFrame wh key f).2 = none := by
  simp only [startSendFrame]
  have hm : (if wh.role = .Client ∧ wh.auto_apply_mask then f.maskWith key
      else f).opcode = .Close := by
    split_ifs
    · simpa [Frame.maskWith] using hop
    · exact hop
  rw [if_pos hm]
  exact ⟨rfl, rfl⟩

lemma startSendFrame_closed_err (wh : WriteHalf) (key : List Nat) (f : Frame)
    (hcl : wh.closed = true) (hop : f.opcode ≠ .Close) :
    startSendFrame wh key f = (wh, some .ConnectionClosed) := by
  simp only [startSendFrame]
  have hm : ¬(if wh.role = .Client ∧ wh.auto_apply_mask then f.maskWith key
      else f).opcode = .Close := by
    split_ifs
    · simpa [Frame.maskWith] using hop
    · exact hop
  rw [if_neg hm, if_pos hcl]

/-! ## Claims -/

/-- C1 (amended): the engine unmasks a frame (and clears its mask) exactly
when the reading half's role is Server and `auto_apply_mask` is set:
every frame surfaced by `read_frame_inner` is the parsed frame passed
through the role-conditional unmask, so a Server-role read with
`auto_apply_mask` returns it with the mask cleared, while a Client-role
read returns the parsed frame unchanged, mask and masked payload intact. -/
theorem fastws_C1_unmask_server_only (rh : ReadHalf) (input : List Nat)
    (f : Frame) (rest : List Nat) (g : Frame)
    (hparse : pollParseFrameHeader rh.max_message_size input = .ok (f, rest))
    (hres : ((readFrameInner rh input).1).1 = .ok (some g)) :
    g = applyAutoUnmask rh f
    ∧ (rh.role = .Server → rh.auto_apply_mask = true → g.mask = none)
    ∧ (rh.role = .Client → g = f) := by
  have hg : g = applyAutoUnmask rh f := by
    unfold readFrameInner at hres
    rw [hparse] at hres
    exact processFrame_ok_some rh _ g hres
  refine ⟨hg, ?_, ?_⟩
  · intro hrole hauto
    rw [hg]
    unfold applyAutoUnmask
    rw [if_pos ⟨hrole, hauto⟩]
    unfold Frame.unmask
    cases hm : f.mask <;> simp [hm]
  · intro hrole
    rw [hg]
    unfold applyAutoUnmask
    rw [if_neg (by rintro ⟨h1, _⟩; rw [hrole] at h1; cases h1)]

/-- Witness for C1: the spec scenario S1 read, Server role: the surfaced
frame has its mask cleared. -/
theorem fastws_C1_unmask_server_only_witness :
    ({ fin := true, opcode := .Text, mask := none,
       payload := [72, 101, 108, 108, 111] } : Frame).mask = none :=
  (fastws_C1_unmask_server_only (ReadHalf.afterHandshake .Server)
    [129, 133, 55, 250, 33, 61, 127, 159, 77, 81, 88]
    { fin := true, opcode := .Text, mask := some [55, 250, 33, 61],
      payload := [127, 159, 77, 81, 88] } []
    { fin := true, opcode := .Text, mask := none,
      payload := [72, 101, 108, 108, 111] }
    (by decide) (by decide)).2.1 rfl rfl

/-- Counterexample to C1 as stated: a Client-role read with
`auto_apply_mask = true` of a masked Binary frame returns the frame with
the mask STILL PRESENT and the payload still masked — unmasking it would
have produced payload `[65]`, not `[64]`. -/
theorem fastws_C1_counterexample :
    ((readFrameInner (ReadHalf.afterHandshake .Client)
        [130, 129, 1, 0, 0, 0, 64]).1).1 =
      .ok (some { fin := true, opcode := .Binary, mask := some [1, 0, 0, 0],
                  payload := [64] })
    ∧ ({ fin := true, opcode := .Binary, mask := some [1, 0, 0, 0],
         payload := [64] } : Frame).mask ≠ none
    ∧ (ReadHalf.afterHandshake .Client).auto_apply_mask = true
    ∧ ({ fin := true, opcode := .Binary, mask := some [1, 0, 0, 0],
         payload := [64] } : Frame).unmask.payload = [65] := by decide

/-- C2: with `auto_close` on, a received Close frame is processed by payload
length: length 0 surfaces the frame with an empty Close as obligated reply;
length 1 fails `InvalidCloseFrame` with no reply; length ≥ 2 with a
non-UTF-8 remainder fails `InvalidUTF8` with no reply; length ≥ 2, UTF-8
remainder but a disallowed close code fails `InvalidCloseCode` with
obligated reply `close(1002, reason)`; otherwise the frame is surfaced with
an obligated reply echoing the entire peer payload. -/
theorem fastws_C2_close_processing (rh : ReadHalf) (f : Frame)
    (hauto : rh.auto_close = true) (hop : f.opcode = .Close) :
    (f.payload.length = 0 →
      processFrame rh f = (.ok (some f), some (Frame.closeRaw [])))
    ∧ (f.payload.length = 1 →
      processFrame rh f = (.error .InvalidCloseFrame, none))
    ∧ (2 ≤ f.payload.length → isUtf8 (f.payload.drop 2) = false →
      processFrame rh f = (.error .InvalidUTF8, none))
    ∧ (2 ≤ f.payload.length → isUtf8 (f.payload.drop 2) = true →
      closeCodeAllowed (closeCodeOf f.payload) = false →
      processFrame rh f = (.error .InvalidCloseCode,
        some (Frame.close 1002 (f.payload.drop 2))))
    ∧ (2 ≤ f.payload.length → isUtf8 (f.payload.drop 2) = true →
      closeCodeAllowed (closeCodeOf f.payload) = true →
      processFrame rh f = (.ok (some f), some (Frame.closeRaw f.payload))) := by
  refine ⟨?_, ?_, ?_, ?_, ?_⟩
  · intro h0
    have hnil : f.payload = [] := List.length_eq_zero.mp h0
    simp [processFrame, hop, hauto, h0, hnil]
  · intro h1
    simp [processFrame, hop, hauto, h1]
  · intro h2 hutf
    simp only [processFrame, hop, hauto, if_true]
    rw [if_neg (by omega), if_neg (by omega)]
    simp [hutf]
  · intro h2 hutf hcode
    simp only [processFrame, hop, hauto, if_true, hutf, hcode]
    rw [if_neg (by omega), if_neg (by omega)]
    simp
  · intro h2 hutf hcode
    simp only [processFrame, hop, hauto, if_true, hutf, hcode]
    rw [if_neg (by omega), if_neg (by omega)]
    simp

/-- Witness for C2: spec scenario S4 — close code 999 is disallowed and the
obligated reply is `close(1002, [])`. -/
theorem fastws_C2_close_processing_witness :
    processFrame (ReadHalf.afterHandshake .Server)
      { fin := true, opcode := .Close, mask := none, payload := [3, 231] } =
      (.error .InvalidCloseCode, some (Frame.close 1002 [])) := by
  have h := (fastws_C2_close_processing (ReadHalf.afterHandshake .Server)
    { fin := true, opcode := .Close, mask := none, payload := [3, 231] }
    rfl rfl).2.2.2.1 (by decide) (by decide) (by decide)
  simpa using h

/-- C6: a Text frame with `fin = true` whose payload is not valid UTF-8
makes the read fail `InvalidUTF8`; a Text frame with `fin = false` is
surfaced unchanged, with no UTF-8 validation and no obligated reply. -/
theorem fastws_C6_text_utf8 (rh : ReadHalf) (f : Frame) (hop : f.opcode = .Text) :
    (f.fin = true → isUtf8 f.payload = false →
      processFrame rh f = (.error .InvalidUTF8, none))
    ∧ (f.fin = false → processFrame rh f = (.ok (some f), none)) := by
  constructor
  · intro hfin hutf
    simp [processFrame, hop, hfin, hutf]
  · intro hfin
    simp [processFrame, hop, hfin]

/-- Witness for C6: a final Text frame with the lone continuation byte 0x80
fails `InvalidUTF8`; a non-final Text frame with the same payload is
surfaced as-is. -/
theorem fastws_C6_text_utf8_witness :
    processFrame (ReadHalf.afterHandshake .Server)
      { fin := true, opcode := .Text, mask := none, payload := [128] } =
      (.error .InvalidUTF8, none)
    ∧ processFrame (ReadHalf.afterHandshake .Server)
      { fin := false, opcode := .Text, mask := none, payload := [128] } =
      (.ok (some { fin := false, opcode := .Text, mask := none, payload := [128] }),
        none) :=
  ⟨(fastws_C6_text_utf8 (ReadHalf.afterHandshake .Server)
      { fin := true, opcode := .Text, mask := none, payload := [128] } rfl).1
      rfl (by decide),
   (fastws_C6_text_utf8 (ReadHalf.afterHandshake .Server)
      { fin := false, opcode := .Text, mask := none, payload := [128] } rfl).2 rfl⟩

/-- C7: with `auto_pong` on, a received Ping (payload ≤ 125) yields
`Ok(None)` together with an obligated Pong whose payload is identical to
the ping payload; because the inner result is `Ok(None)`, the duplex read
loop iterates again instead of surfacing the Ping. -/
theorem fastws_C7_auto_pong (rh : ReadHalf) (f : Frame)
    (hauto : rh.auto_pong = true) (hop : f.opcode = .Ping)
    (_hlen : f.payload.length ≤ 125) :
    processFrame rh f = (.ok none, some (Frame.pong f.payload))
    ∧ (Frame.pong f.payload).payload = f.payload
    ∧ ∀ (wh : WriteHalf) (key : List Nat) (obl : Option Frame),
        (pollReadFrameStep wh key (.ok none) obl).1 = .again := by
  refine ⟨by simp [processFrame, hop, hauto], rfl, ?_⟩
  intro wh key obl
  cases obl with
  | none => simp [pollReadFrameStep]
  | some reply =>
    simp only [pollReadFrameStep]
    cases hcl : wh.closed
    · have hs := startSendFrame_snd_none wh key reply hcl
      simp [hcl, hs]
    · simp [hcl]

/-- Witness for C7: spec scenario S2 — ping with empty payload obliges an
empty Pong, and the loop outcome on `Ok(None)` is `again`. -/
theorem fastws_C7_auto_pong_witness :
    processFrame (ReadHalf.afterHandshake .Server)
      { fin := true, opcode := .Ping, mask := none, payload := [] } =
      (.ok none, some (Frame.pong []))
    ∧ (pollReadFrameStep (WriteHalf.afterHandshake .Server) [] (.ok none) none).1 =
      .again := by
  have h := fastws_C7_auto_pong (ReadHalf.afterHandshake .Server)
    { fin := true, opcode := .Ping, mask := none, payload := [] } rfl rfl (by decide)
  exact ⟨h.1, h.2.2 (WriteHalf.afterHandshake .Server) [] none⟩

/-- C10: `start_send_frame` is atomic on error — whenever it reports an
error, that error is `ConnectionClosed` and the write half is returned
exactly as it was: no header or payload bytes appended, closed flag
unchanged. -/
theorem fastws_C10_atomic_error (wh : WriteHalf) (key : List Nat) (f : Frame)
    (e : WebSocketError) (herr : (startSendFrame wh key f).2 = some e) :
    e = .ConnectionClosed ∧ (startSendFrame wh key f).1 = wh := by
  simp only [startSendFrame] at herr ⊢
  by_cases hc : (if wh.role = .Client ∧ wh.auto_apply_mask then f.maskWith key
      else f).opcode = .Close
  · rw [if_pos hc] at herr
    simp at herr
  · rw [if_neg hc] at herr ⊢
    by_cases hcl : wh.closed = true
    · rw [if_pos hcl] at herr ⊢
      simp at herr
      exact ⟨herr.symm, rfl⟩
    · rw [if_neg hcl] at herr
      simp at herr

/-- Witness for C10: a non-Close send on a latched-closed write half. -/
theorem fastws_C10_atomic_error_witness :
    WebSocketError.ConnectionClosed = WebSocketError.ConnectionClosed ∧
      (startSendFrame
        { role := .Server, closed := true, vectored := true, auto_apply_mask := true,
          writev_threshold := 1024, buffer := [7, 7] } []
        { fin := true, opcode := .Binary, mask := none, payload := [1] }).1 =
      { role := .Server, closed := true, vectored := true, auto_apply_mask := true,
        writev_threshold := 1024, buffer := [7, 7] } :=
  fastws_C10_atomic_error
    { role := .Server, closed := true, vectored := true, auto_apply_mask := true,
      writev_threshold := 1024, buffer := [7, 7] } []
    { fin := true, opcode := .Binary, mask := none, payload := [1] }
    .ConnectionClosed (by decide)

lemma runSends_closed_mono (l : List (List Nat × Frame)) (wh : WriteHalf)
    (h : wh.closed = true) : (runSends wh l).2.closed = true := by
  induction l generalizing wh with
  | nil => exact h
  | cons e rest ih =>
    obtain ⟨key, f⟩ := e
    simp only [runSends]
    exact ih _ (startSendFrame_closed_mono wh key f h)

lemma runSends_contains_close (l : List (List Nat × Frame)) (wh : WriteHalf)
    (h : ∃ e ∈ l, (e : List Nat × Frame).2.opcode = .Close) :
    (runSends wh l).2.closed = true := by
  induction l generalizing wh with
  | nil => simp at h
  | cons e rest ih =>
    obtain ⟨key, f⟩ := e
    simp only [runSends]
    rcases h with ⟨e2, he2, hop⟩
    rcases List.mem_cons.mp he2 with heq | hmem
    · subst heq
      exact runSends_closed_mono rest _ (startSendFrame_close wh key f hop).1
    · exact ih _ ⟨e2, hmem, hop⟩

/-- C3: the closed flag is a latch. Sending a Close always succeeds and
latches `closed`; `closed` is never reset by any send; and in any sequence
of `start_send_frame` calls, once some earlier call sent a Close, the next
call fails with `ConnectionClosed` exactly when its opcode is not Close
(a further Close send reports no error at all). -/
theorem fastws_C3_close_latch :
    (∀ (wh : WriteHalf) (key : List Nat) (f : Frame), f.opcode = .Close →
      (startSendFrame wh key f).1.closed = true ∧ (startSendFrame wh key f).2 = none)
    ∧ (∀ (wh : WriteHalf) (key : List Nat) (f : Frame), wh.closed = true →
      (startSendFrame wh key f).1.closed = true)
    ∧ (∀ (wh : WriteHalf) (pre : List (List Nat × Frame)) (key : List Nat)
        (g : Frame) (rest : List (List Nat × Frame)),
        (∃ e ∈ pre, (e : List Nat × Frame).2.opcode = .Close) →
        (runSends (runSends wh pre).2 ((key, g) :: rest)).1.head? =
          some (if g.opcode = .Close then none else some .ConnectionClosed)) := by
  refine ⟨fun wh key f hop => startSendFrame_close wh key f hop,
    fun wh key f h => startSendFrame_closed_mono wh key f h, ?_⟩
  intro wh pre key g rest hclose
  have hcl : (runSends wh pre).2.closed = true := runSends_contains_close pre wh hclose
  simp only [runSends, List.head?_cons]
  by_cases hop : g.opcode = .Close
  · rw [if_pos hop, (startSendFrame_close _ key g hop).2]
  · rw [if_neg hop, startSendFrame_closed_err _ key g hcl hop]

/-- Witness for C3: after a Close is enqueued, a Binary send reports
`ConnectionClosed`. -/
theorem fastws_C3_close_latch_witness :
    (runSends (runSends (WriteHalf.afterHandshake .Server)
        [([], Frame.closeRaw [])]).2
      [([], { fin := true, opcode := .Binary, mask := none, payload := [] })]).1.head? =
      some (some .ConnectionClosed) := by
  have h := fastws_C3_close_latch.2.2 (WriteHalf.afterHandshake .Server)
    [([], Frame.closeRaw [])] []
    { fin := true, opcode := .Binary, mask := none, payload := [] } []
    ⟨([], Frame.closeRaw []), by simp, rfl⟩
  simpa using h

/-- Counterexample to C5 as stated: a Ping frame declaring payload length
126 against `max_message_size = 100` fails with `PingFrameTooLarge`, not
`FrameTooLarge`, even though 126 ≥ 100 — the Ping-size check precedes the
message-size check, so "fails with FrameTooLarge exactly when
payload_len ≥ max_message_size" does not hold of every incoming frame. -/
theorem fastws_C5_counterexample :
    pollParseFrameHeader 100 [137, 126, 0, 126] = .error .PingFrameTooLarge
    ∧ WebSocketError.PingFrameTooLarge ≠ WebSocketError.FrameTooLarge
    ∧ 100 ≤ 126 := by decide

/-- C5 (amended): among frames passing the header checks that precede the
size test (defined opcode, RSV clear, control frames final, a 4-byte mask
when masked, Ping payload ≤ 125), the parser fails with `FrameTooLarge`
exactly when the declared payload length is ≥ `max_message_size`; in
particular a payload length exactly equal to `max_message_size` is
rejected. -/
theorem fastws_C5_size_limit (max : Nat) (f : Frame) (rest : List Nat)
    (hmask : ∀ k, f.mask = some k → k.length = 4)
    (hfin : isControl f.opcode = true → f.fin = true)
    (hping : f.opcode = OpCode.Ping → f.payload.length ≤ 125)
    (h64 : f.payload.length < 2 ^ 64) :
    (pollParseFrameHeader max (f.fmtHead ++ f.payload ++ rest) =
        .error .FrameTooLarge ↔ max ≤ f.payload.length)
    ∧ (f.payload.length = max →
      pollParseFrameHeader max (f.fmtHead ++ f.payload ++ rest) =
        .error .FrameTooLarge) := by
  have h := parse_fmtHead max f rest hmask hfin hping h64
  constructor
  · constructor
    · intro he
      by_contra hlt
      rw [if_neg hlt] at h
      rw [h] at he
      cases he
    · intro hle
      rw [h, if_pos hle]
  · intro heq
    rw [h, if_pos (by omega)]

/-- Witness for C5: a Binary frame whose payload length equals the limit is
rejected with `FrameTooLarge`. -/
theorem fastws_C5_size_limit_witness :
    pollParseFrameHeader 3
      (({ fin := true, opcode := .Binary, mask := none,
          payload := [1, 2, 3] } : Frame).fmtHead ++ [1, 2, 3] ++ []) =
      .error .FrameTooLarge :=
  (fastws_C5_size_limit 3
    { fin := true, opcode := .Binary, mask := none, payload := [1, 2, 3] } []
    (fun k h => nomatch h) (by decide) (by decide) (by decide)).2 rfl

/-- C9: the 125-byte control-payload limit is enforced only for Ping —
a final, unmasked Pong or Close frame declaring any payload length
between 126 and `max_message_size` (exclusive) parses successfully,
with no `PingFrameTooLarge` or any other error. -/
theorem fastws_C9_large_pong_close (max : Nat) (f : Frame) (rest : List Nat)
    (hop : f.opcode = .Pong ∨ f.opcode = .Close)
    (hfin : f.fin = true)
    (hmask : ∀ k, f.mask = some k → k.length = 4)
    (_hlen : 125 < f.payload.length)
    (hmax : f.payload.length < max)
    (h64 : f.payload.length < 2 ^ 64) :
    pollParseFrameHeader max (f.fmtHead ++ f.payload ++ rest) = .ok (f, rest) := by
  have h := parse_fmtHead max f rest hmask (fun _ => hfin)
    (by intro hping; rcases hop with h | h <;> rw [hping] at h <;> cases h) h64
  rw [h, if_neg (by omega)]

set_option maxRecDepth 4000 in
/-- Witness for C9: a 126-byte Pong against a limit of 1000 parses fine. -/
theorem fastws_C9_large_pong_close_witness :
    pollParseFrameHeader 1000
      (({ fin := true, opcode := .Pong, mask := none,
          payload := List.replicate 126 0 } : Frame).fmtHead ++
        List.replicate 126 0 ++ []) =
      .ok ({ fin := true, opcode := .Pong, mask := none,
             payload := List.replicate 126 0 }, []) :=
  fastws_C9_large_pong_close 1000
    { fin := true, opcode := .Pong, mask := none, payload := List.replicate 126 0 }
    [] (Or.inl rfl) rfl (fun k h => nomatch h) (by decide) (by decide) (by decide)

/-- C8: `poll_flush` returns Ok only with the write buffer fully drained;
a failing stream-level flush or a failing write surfaces an error; a write
accepting 0 bytes while the buffer is non-empty yields `ConnectionClosed`;
and a partial write advances the buffer by exactly the accepted count and
keeps draining. -/
theorem fastws_C8_flush_drains :
    (∀ (buf : List Nat) (fr : List Bool) (wr : List (Option Nat)),
      (pollFlush buf fr wr).1 = .ok → (pollFlush buf fr wr).2 = [])
    ∧ (∀ (buf : List Nat) (fr : List Bool) (wr : List (Option Nat)),
      pollFlush buf (false :: fr) wr = (.err .IoError, buf))
    ∧ (∀ (buf : List Nat) (fr : List Bool) (wr : List (Option Nat)), buf ≠ [] →
      pollFlush buf (true :: fr) (none :: wr) = (.err .IoError, buf))
    ∧ (∀ (buf : List Nat) (fr : List Bool) (wr : List (Option Nat)), buf ≠ [] →
      pollFlush buf (true :: fr) (some 0 :: wr) = (.err .ConnectionClosed, buf))
    ∧ (∀ (buf : List Nat) (fr : List Bool) (wr : List (Option Nat)) (n : Nat),
      buf ≠ [] → 0 < n →
      pollFlush buf (true :: fr) (some n :: wr) = pollFlush (buf.drop n) fr wr) := by
  refine ⟨?_, ?_, ?_, ?_, ?_⟩
  · intro buf fr wr
    induction fr generalizing buf wr with
    | nil => intro h; simp [pollFlush] at h
    | cons b fr ih =>
      cases b
      · intro h; simp [pollFlush] at h
      · by_cases hb : buf.isEmpty
        · intro _
          simp only [pollFlush, if_pos hb]
          exact List.isEmpty_iff.mp hb
        · cases wr with
          | nil => intro h; simp [pollFlush, hb] at h
          | cons w wr =>
            cases w with
            | none => intro h; simp [pollFlush, hb] at h
            | some n =>
              cases n with
              | zero => intro h; simp [pollFlush, hb] at h
              | succ m =>
                intro h
                simp only [pollFlush, if_neg hb] at h ⊢
                exact ih _ _ h
  · intro buf fr wr; rfl
  · intro buf fr wr hb
    cases buf with
    | nil => cases hb rfl
    | cons x buf => rfl
  · intro buf fr wr hb
    cases buf with
    | nil => cases hb rfl
    | cons x buf => rfl
  · intro buf fr wr n hb hn
    cases n with
    | zero => omega
    | succ m =>
      cases buf with
      | nil => cases hb rfl
      | cons x buf => rfl

/-- Witness for C8: a two-byte buffer over a stream that flushes cleanly and
accepts 2 bytes drains to empty. -/
theorem fastws_C8_flush_drains_witness :
    (pollFlush [1, 2] [true, true] [some 2]).2 = [] ∧
      pollFlush [1, 2] [false] [] = (.err .IoError, [1, 2]) ∧
      pollFlush [1, 2] [true] [some 0] = (.err .ConnectionClosed, [1, 2]) :=
  ⟨fastws_C8_flush_drains.1 [1, 2] [true, true] [some 2] (by decide),
   fastws_C8_flush_drains.2.1 [1, 2] [] [],
   fastws_C8_flush_drains.2.2.2.1 [1, 2] [] [] (by decide)⟩

/-- With the write half closed, the duplex loop body ignores the obligated
reply, touches nothing, and resolves purely from the inner result. -/
lemma pollReadFrameStep_closed (wh : WriteHalf) (key : List Nat)
    (res : Except WebSocketError (Option Frame)) (obl : Option Frame)
    (hcl : wh.closed = true) :
    pollReadFrameStep wh key res obl =
      (match res with
       | .error e => (.err e, wh, [])
       | .ok none => (.again, wh, [])
       | .ok (some f) =>
         (if f.opcode = .Close then StepOut.done f else .err .ConnectionClosed,
          wh, [])) := by
  cases obl with
  | none =>
    simp only [pollReadFrameStep, hcl]
    cases res with
    | error e => rfl
    | ok o =>
      cases o with
      | none => rfl
      | some f =>
        by_cases hcop : f.opcode = OpCode.Close
        · simp [hcop]
        · simp [hcop]
  | some reply =>
    simp only [pollReadFrameStep, hcl, Bool.not_true, Bool.false_eq_true, reduceIte]
    cases res with
    | error e => rfl
    | ok o =>
      cases o with
      | none => rfl
      | some f =>
        by_cases hcop : f.opcode = OpCode.Close
        · simp [hcop]
        · simp [hcop]

/-- C4: one iteration of the duplex `poll_read_frame` loop. If the inner
read produced an obligated reply and the write half is not closed, the
reply is enqueued after the existing buffer and the whole buffer is
flushed to the stream before the iteration resolves; if the write half is
already closed, the reply is dropped (state untouched, nothing written),
and a surfaced non-Close frame turns into `ConnectionClosed` while a
surfaced Close frame is still returned. -/
theorem fastws_C4_duplex_obligated :
    (∀ (wh : WriteHalf) (key : List Nat)
       (res : Except WebSocketError (Option Frame)) (reply : Frame),
       wh.closed = false →
       (pollReadFrameStep wh key res (some reply)).2.2 =
         wh.buffer ++
           (if wh.role = .Client ∧ wh.auto_apply_mask then reply.maskWith key
            else reply).fmtHead ++
           (if wh.role = .Client ∧ wh.auto_apply_mask then reply.maskWith key
            else reply).payload
       ∧ (pollReadFrameStep wh key res (some reply)).2.1.buffer = [])
    ∧ (∀ (wh : WriteHalf) (key : List Nat)
       (res : Except WebSocketError (Option Frame)) (obl : Option Frame),
       wh.closed = true →
       (pollReadFrameStep wh key res obl).2.1 = wh
       ∧ (pollReadFrameStep wh key res obl).2.2 = []
       ∧ ∀ f, res = .ok (some f) →
           (pollReadFrameStep wh key res obl).1 =
             (if f.opcode = .Close then .done f else .err .ConnectionClosed)) := by
  constructor
  · intro wh key res reply hcl
    have hs := startSendFrame_snd_none wh key reply hcl
    have hbuf := startSendFrame_buffer wh key reply hcl
    simp only [pollReadFrameStep, hcl, hs, Bool.not_false, reduceIte]
    cases res with
    | error e => exact ⟨hbuf, rfl⟩
    | ok o =>
      cases o with
      | none => exact ⟨hbuf, rfl⟩
      | some f => exact ⟨hbuf, rfl⟩
  · intro wh key res obl hcl
    rw [pollReadFrameStep_closed wh key res obl hcl]
    refine ⟨?_, ?_, ?_⟩
    · cases res with
      | error e => rfl
      | ok o => cases o <;> rfl
    · cases res with
      | error e => rfl
      | ok o => cases o <;> rfl
    · intro f hf
      cases res with
      | error e => cases hf
      | ok o =>
        cases o with
        | none => cases hf
        | some f0 =>
          have hf0 : f0 = f := by
            have := Except.ok.inj hf
            exact Option.some.inj this
          rw [hf0]

/-- Witness for C4: with an open write half the buffer is drained by the
obligated send; with a closed write half a surfaced Binary frame becomes
`ConnectionClosed`. -/
theorem fastws_C4_duplex_obligated_witness :
    (pollReadFrameStep (WriteHalf.afterHandshake .Server) []
        (.ok none) (some (Frame.pong [1]))).2.1.buffer = []
    ∧ (pollReadFrameStep
        { role := .Server, closed := true, vectored := true, auto_apply_mask := true,
          writev_threshold := 1024, buffer := [] } []
        (.ok (some { fin := true, opcode := .Binary, mask := none, payload := [] }))
        (some (Frame.pong []))).1 =
      (if ({ fin := true, opcode := .Binary, mask := none, payload := [] } : Frame).opcode
          = OpCode.Close then
        StepOut.done { fin := true, opcode := .Binary, mask := none, payload := [] }
      else .err .ConnectionClosed) :=
  ⟨(fastws_C4_duplex_obligated.1 (WriteHalf.afterHandshake .Server) [] (.ok none)
      (Frame.pong [1]) rfl).2,
   (fastws_C4_duplex_obligated.2
      { role := .Server, closed := true, vectored := true, auto_apply_mask := true,
        writev_threshold := 1024, buffer := [] } []
      (.ok (some { fin := true, opcode := .Binary, mask := none, payload := [] }))
      (some (Frame.pong [])) rfl).2.2
      { fin := true, opcode := .Binary, mask := none, payload := [] } rfl⟩

end FastWS
